import Mathlib

/-!
Verification of `sre_agent/output_formatter.py` (class `SREOutputFormatter`).

The Python module is embedded shallowly:

* Python strings are `String`; the handful of Python string primitives the
  module uses (`str.lower`, `str.strip`, `str.title`, `str.replace("_", " ")`,
  `str.split("\n")`, `str.startswith`, the `in` substring test) are
  re-implemented here over `String.data` character lists, matching the
  Python semantics on the ASCII inputs the module manipulates.
* Python dicts holding the plan and the metadata are records of `Option`
  fields; `dict.get(k, d)` is `Option.getD`, and dict truthiness (a
  non-empty dict) is the `truthy` predicate over the modelled keys.
* `agent_results` is an insertion-ordered mapping, embedded as an
  association list.
* The effectful collaborators of `_generate_executive_summary` (LLM client
  construction, prompt loading, and the invocation itself) are out of scope
  per the specification; they are bundled into one deterministic oracle
  `LLMOracle` mapping the query and the assembled context text to either a
  response content string or a raised exception (`Except.error`).  The
  pure context assembly (`results_text`) is embedded from the source.
* Machine-level concerns (logging, `os.getenv`) are dropped: they do not
  affect any returned string.
-/

/-- The deterministic model of the effectful steps inside the
`_generate_executive_summary` try-block: given the query and the assembled
results text, either the text content of the LLM response (`Except.ok`) or
a raised exception (`Except.error`). -/
def LLMOracle : Type := String → String → Except String String

/-- Model of `str.lower` (ASCII, as used on agent names). -/
def pyLower (s : String) : String := String.mk (s.data.map Char.toLower)

/-- Model of `str.strip` with no argument (whitespace trimming on both
sides, ASCII whitespace). -/
def pyStrip (s : String) : String :=
  String.mk (((s.data.dropWhile Char.isWhitespace).reverse.dropWhile Char.isWhitespace).reverse)

/-- Model of `agent_name.replace("_", " ")`: the single-character pattern
makes Python `str.replace` a character map. -/
def replaceUnderscores (s : String) : String :=
  String.mk (s.data.map (fun c => if c = '_' then ' ' else c))

/-- Auxiliary walk for `pythonTitle`; the Bool argument records whether the
previous character was cased (alphabetic). -/
def pythonTitleAux : List Char → Bool → List Char
  | [], _ => []
  | c :: cs, prevCased =>
    if c.isAlpha then
      (if prevCased then c.toLower else c.toUpper) :: pythonTitleAux cs true
    else
      c :: pythonTitleAux cs false

/-- Model of `str.title`: each maximal run of cased characters is
capitalized on its first character and lowercased on the rest (ASCII). -/
def pythonTitle (s : String) : String := String.mk (pythonTitleAux s.data false)

/-- Model of `"\n".join`-inverse `str.split("\n")`: split on every newline,
keeping empty pieces; the empty string yields `[""]` like Python. -/
def splitLinesAux : List Char → List Char → List String
  | [], acc => [String.mk acc.reverse]
  | c :: cs, acc =>
    if c = '\n' then String.mk acc.reverse :: splitLinesAux cs []
    else splitLinesAux cs (c :: acc)

/-- Model of `response.split("\n")`. -/
def pySplitLines (s : String) : List String := splitLinesAux s.data []

/-- Character-list version of `str.startswith`. -/
def listStartsWith : List Char → List Char → Bool
  | _, [] => true
  | [], _ :: _ => false
  | a :: s, b :: p => a == b && listStartsWith s p

/-- Model of `s.startswith(p)` for a single string argument. -/
def pyStartsWith (s p : String) : Bool := listStartsWith s.data p.data

/-- Character-list substring search, used to model the Python `in` test on
strings. -/
def listContainsSub (pat : List Char) : List Char → Bool
  | [] => pat.isEmpty
  | c :: rest => listStartsWith (c :: rest) pat || listContainsSub pat rest

/-- Model of the Python substring test `pat in s`. -/
def strContains (s pat : String) : Bool := listContainsSub pat.data s.data

/-- Model of `line[0].isdigit()` guarded by non-emptiness: the first
character of the string, if any, is a decimal digit. -/
def firstIsDigit (s : String) : Bool :=
  match s.data with
  | [] => false
  | c :: _ => c.isDigit

/-- Model of Python `enumerate(l, start)` producing index/value pairs. -/
def enumerateFrom (start : Int) : List α → List (Int × α)
  | [] => []
  | a :: l => (start, a) :: enumerateFrom (start + 1) l

/-- Model of the Python slice `l[n:]`, including the negative-index case
(counted from the end, clamped at the start of the list). -/
def pySliceFrom (n : Int) (l : List α) : List α :=
  if 0 ≤ n then l.drop n.toNat else l.drop (l.length - (-n).toNat)

/-- Character position lookup used by the disjointness lemmas below. -/
def chAt (s : String) (i : Nat) : Option Char := (s.data.drop i).head?

/-- A plan dict restricted to the keys `format_investigation_response` and
`format_plan_approval` read.  `none` means the key is absent, so that
`plan.get(key, default)` is `Option.getD`. -/
structure PlanDict where
  steps : Option (List String)
  complexity : Option String
  reasoning : Option String
  auto_execute : Option Bool
deriving DecidableEq

/-- Python truthiness of the plan dict over the modelled keys: a dict is
truthy when it has at least one key. -/
def PlanDict.truthy (p : PlanDict) : Bool :=
  p.steps.isSome || p.complexity.isSome || p.reasoning.isSome || p.auto_execute.isSome

/-- The empty dict `{}` used as the default for `metadata.get("investigation_plan", {})`. -/
def PlanDict.empty : PlanDict := ⟨none, none, none, none⟩

/-- The metadata dict restricted to the keys the formatter reads:
`plan_step` (default 0) and `investigation_plan` (default `{}`). -/
structure Metadata where
  plan_step : Option Int
  investigation_plan : Option PlanDict
deriving DecidableEq

/-- The classification of one trimmed line inside
`_extract_steps_from_response`:
`line and (line[0].isdigit() or line.startswith("-") or line.startswith("•"))`. -/
def is_step_line (line : String) : Bool :=
  line ≠ "" && (firstIsDigit line || pyStartsWith line "-" || pyStartsWith line "•")

/-- Embedding of `SREOutputFormatter._extract_steps_from_response`: the
early return on a falsy argument, then the accumulating loop over the
split lines. -/
def extract_steps_from_response (response : String) : List String :=
  if response = "" then []
  else
    (pySplitLines response).foldl
      (fun steps line =>
        if is_step_line (pyStrip line) then steps ++ [pyStrip line] else steps)
      []

/-- Modelled from the spec, section 4.1 (the Step Extractor contract): the
trimmed lines of the input that are non-empty and whose first character is
a digit or that start with a dash or the bullet glyph, verbatim and in
original order. -/
def extract_steps_spec (response : String) : List String :=
  ((pySplitLines response).map pyStrip).filter is_step_line

/-- Modelled from the spec, section 4.2 step 3: the "serialized (JSON-like,
indented) rendering" of the user preferences produced by the standard
library `json.dumps(user_preferences, indent=2, default=str)`; preference
records are opaque here, so each is modelled as one pre-rendered string. -/
def json_dumps_prefs (prefs : List String) : String :=
  "[\n" ++ String.intercalate ",\n" (prefs.map (fun p => "  \"" ++ p ++ "\"")) ++ "\n]"

/-- Embedding of the pure context assembly inside
`_generate_executive_summary` (lines 170-183 of the source): the labeled
block per contributing agent, joined with newlines, plus the optional user
preferences appendix.  An absent preferences argument and an empty
preference list are both falsy in Python, so both are the empty list here. -/
def formatted_results (agent_results : List (String × String)) : List String :=
  agent_results.filterMap (fun ar =>
    if ar.2 ≠ "" ∧ ar.2 ≠ "No response provided" then
      some ("**" ++ ar.1 ++ ":**\n" ++ ar.2 ++ "\n")
    else none)

/-- The joined context text, with the optional user preferences appendix
(lines 176-183 of the source). -/
def results_text (agent_results : List (String × String)) (user_preferences : List String) : String :=
  if user_preferences ≠ [] then
    String.intercalate "\n" (formatted_results agent_results)
      ++ "\n\n**User Preferences:**\n" ++ json_dumps_prefs user_preferences ++ "\n"
  else String.intercalate "\n" (formatted_results agent_results)

/-- The fixed fallback executive summary returned by
`_generate_fallback_summary`, byte for byte. -/
def fallback_text : String :=
  "## 📋 Executive Summary\n\n### 🎯 Key Insights\n- **Root Cause**: Investigation findings require analysis\n- **Impact**: Service performance may be affected\n- **Severity**: Medium\n\n### ⚡ Next Steps\n1. **Immediate** (< 1 hour): Review detailed findings below\n2. **Short-term** (< 24 hours): Execute recommended remediation steps\n3. **Long-term** (< 1 week): Monitor system metrics for improvement\n4. **Follow-up**: Schedule post-incident review if applicable"

/-- Embedding of `SREOutputFormatter._generate_fallback_summary`: the
method ignores both of its parameters and returns the constant template. -/
def generate_fallback_summary (query : String) (agent_results : List (String × String)) : String :=
  fallback_text

/-- Embedding of `SREOutputFormatter._generate_executive_summary`: the
empty-results early return, then the try-block whose effectful steps are
the oracle; on success the response content is stripped, on any exception
the fallback summary is returned.  The `metadata` parameter is accepted
and ignored exactly as in the source. -/
def generate_executive_summary (oracle : LLMOracle) (query : String)
    (agent_results : List (String × String)) (metadata : Metadata)
    (user_preferences : List String) : String :=
  if agent_results = [] then ""
  else
    match oracle query (results_text agent_results user_preferences) with
    | Except.ok content => pyStrip content
    | Except.error _ => generate_fallback_summary query agent_results

/-- The list of single-digit ordinal markers of the
`clean_step.startswith(("1.", ..., "9."))` test. -/
def ordinalMarkers : List String := ["1.", "2.", "3.", "4.", "5.", "6.", "7.", "8.", "9."]

/-- Model of the tuple form of `str.startswith` on the ordinal markers. -/
def startsWithOrdinal (s : String) : Bool := ordinalMarkers.any (fun p => pyStartsWith s p)

/-- The lines the Key Findings loop body emits for one `agent_results`
entry (lines 100-133 of the source): nothing for an empty or sentinel
result; otherwise the `### ` subheading followed by either the extracted
runbook steps or the raw result as a single bullet. -/
def agent_findings_lines (agent_name result : String) : List String :=
  if result = "" ∨ result = "No response provided" then []
  else
    ["### " ++ pythonTitle (replaceUnderscores agent_name)]
      ++ (if strContains (pyLower agent_name) "runbooks" || strContains (pyLower agent_name) "operational" then
            (if extract_steps_from_response result ≠ [] then
               [""] ++ ["**Runbook Steps Found:**"]
                 ++ (extract_steps_from_response result).map (fun step =>
                      if startsWithOrdinal (pyStrip step) then pyStrip step
                      else "- " ++ pyStrip step)
                 ++ [""]
             else ["- " ++ result, ""])
          else ["- " ++ result, ""])

/-- The unconditional document header (lines 82-85 of the source). -/
def header_lines (query : String) : List String :=
  ["# 🔍 Investigation Results", "", "**Query:** " ++ query, ""]

/-- The executive summary block: the summary plus a blank line when the
summary string is truthy (lines 91-93 of the source). -/
def summary_block (executive_summary : String) : List String :=
  if executive_summary = "" then [] else [executive_summary, ""]

/-- The Key Findings section (lines 95-133 of the source): emitted whenever
`agent_results` is truthy, even if every entry is then skipped. -/
def findings_block (agent_results : List (String × String)) : List String :=
  if agent_results = [] then []
  else ["## 🎯 Key Findings", ""]
    ++ agent_results.flatMap (fun ar => agent_findings_lines ar.1 ar.2)

/-- The Next Steps section (lines 135-142 of the source): gated on the
truthiness of the plan dict and on `current_step < total_steps`; the
remaining steps are the Python slice `steps[current_step:]` renumbered
from `current_step + 1`. -/
def next_steps_block (plan_info : PlanDict) (current_step : Int) : List String :=
  if plan_info.truthy ∧ current_step < ((plan_info.steps.getD []).length : Int) then
    ["## 📋 Next Steps", ""]
      ++ (enumerateFrom (current_step + 1) (pySliceFrom current_step (plan_info.steps.getD []))).map
          (fun p => toString p.1 ++ ". " ++ p.2)
      ++ [""]
  else []

/-- The Investigation Complete section (lines 144-149 of the source). -/
def complete_block (current_step total_steps : Int) : List String :=
  if total_steps ≤ current_step then
    ["## ✅ Investigation Complete", "", "All planned investigation steps have been executed.", ""]
  else []

/-- Embedding of `plan_info = plan or metadata.get("investigation_plan", {})`:
a supplied truthy plan dict wins, otherwise the metadata plan or the empty
dict. -/
def effective_plan (plan : Option PlanDict) (metadata : Metadata) : PlanDict :=
  match plan with
  | some p => if p.truthy then p else metadata.investigation_plan.getD PlanDict.empty
  | none => metadata.investigation_plan.getD PlanDict.empty

/-- Embedding of `SREOutputFormatter.format_investigation_response` as the
list of strings the source accumulates in `output` before the final join. -/
def format_investigation_response_lines (oracle : LLMOracle) (query : String)
    (agent_results : List (String × String)) (metadata : Metadata)
    (plan : Option PlanDict) (user_preferences : List String) : List String :=
  header_lines query
    ++ summary_block (generate_executive_summary oracle query agent_results metadata user_preferences)
    ++ findings_block agent_results
    ++ next_steps_block (effective_plan plan metadata) (metadata.plan_step.getD 0 + 1)
    ++ complete_block (metadata.plan_step.getD 0 + 1)
        (((effective_plan plan metadata).steps.getD []).length : Int)

/-- Embedding of `SREOutputFormatter.format_investigation_response`:
the accumulated lines joined with newlines. -/
def format_investigation_response (oracle : LLMOracle) (query : String)
    (agent_results : List (String × String)) (metadata : Metadata)
    (plan : Option PlanDict) (user_preferences : List String) : String :=
  String.intercalate "\n"
    (format_investigation_response_lines oracle query agent_results metadata plan user_preferences)

/-- Embedding of `SREOutputFormatter.format_plan_approval` as the list of
accumulated lines: header with query and title-cased complexity, the
numbered steps when present, the details section with defaulted reasoning
and auto-execute flag, and the fixed actions section. -/
def format_plan_approval_lines (plan : PlanDict) (query : String) : List String :=
  ["# 📋 Investigation Plan", "", "**Query:** " ++ query,
   "**Complexity:** " ++ pythonTitle (plan.complexity.getD "unknown"), ""]
    ++ (if plan.steps.getD [] ≠ [] then
          ["## Investigation Steps", ""]
            ++ (enumerateFrom 1 (plan.steps.getD [])).map (fun p => toString p.1 ++ ". " ++ p.2)
            ++ [""]
        else [])
    ++ ["## Plan Details", "",
        "**Reasoning:** " ++ plan.reasoning.getD "Standard investigation approach",
        "**Auto-execute:** " ++ (if plan.auto_execute.getD false then "Yes" else "No"), ""]
    ++ ["## Available Actions", "",
        "- Type `proceed` or `yes` to execute the plan",
        "- Type `modify` to suggest changes",
        "- Ask specific questions about any step", ""]

/-- Embedding of `SREOutputFormatter.format_plan_approval`: the accumulated
lines joined with newlines.  The function takes no oracle: the source makes
no LLM call here, so the embedding is total and deterministic by
construction. -/
def format_plan_approval (plan : PlanDict) (query : String) : String :=
  String.intercalate "\n" (format_plan_approval_lines plan query)

/-- The formatter object: after `__init__` it holds only the resolved
provider identifier and is never written again. -/
structure SREOutputFormatter where
  llm_provider : String
deriving DecidableEq

/-- The `format_investigation_response` method with the receiver threaded
explicitly: the Python body reads `self` only through the collaborators
(modelled by the oracle) and never assigns any attribute, so the embedding
returns the receiver unchanged next to the rendered string. -/
def SREOutputFormatter.format_investigation_response_method (f : SREOutputFormatter)
    (oracle : LLMOracle) (query : String) (agent_results : List (String × String))
    (metadata : Metadata) (plan : Option PlanDict) (user_preferences : List String) :
    String × SREOutputFormatter :=
  (format_investigation_response oracle query agent_results metadata plan user_preferences, f)

/-- A concrete always-failing oracle, modelling an LLM collaborator whose
construction or invocation raises. -/
def failOracle : LLMOracle := fun _ _ => Except.error "simulated LLM failure"

/-- String append acts as append on the underlying character lists. -/
theorem data_append (s t : String) : (s ++ t).data = s.data ++ t.data := by
  cases s; cases t; rfl

/-- Two strings differing at some character position are different. -/
theorem ne_of_chAt {s t : String} (i : Nat) (h : chAt s i ≠ chAt t i) : s ≠ t :=
  fun he => h (by rw [he])

/-- The character at position 0 is the head of the character list. -/
theorem chAt_zero (s : String) : chAt s 0 = s.data.head? := rfl

/-- Appending does not change the first character of a non-empty string. -/
theorem chAt_zero_append (p x : String) (c : Char) (hp : chAt p 0 = some c) :
    chAt (p ++ x) 0 = some c := by
  unfold chAt at hp ⊢
  rw [data_append]
  cases hd : p.data with
  | nil => rw [hd] at hp; simp at hp
  | cons a l => rw [hd] at hp; simpa using hp

/-- The subheading lines emitted for agents keep a hash at position 2,
unlike the section headings, which have a space there. -/
theorem chAt_two_subheading (x : String) : chAt ("### " ++ x) 2 = some '#' := by
  unfold chAt; rw [data_append]; rfl

/-- A true `listStartsWith` forces the head characters to agree. -/
theorem listStartsWith_head {l p : List Char} (h : listStartsWith l p = true) (hp : p ≠ []) :
    l.head? = p.head? := by
  cases p with
  | nil => exact absurd rfl hp
  | cons b bs =>
    cases l with
    | nil => simp [listStartsWith] at h
    | cons a as =>
      simp only [listStartsWith, Bool.and_eq_true, beq_iff_eq] at h
      simp [h.1]

/-- A string passing the single-digit ordinal test starts with a digit. -/
theorem startsWithOrdinal_first_digit {s : String} (h : startsWithOrdinal s = true) :
    ∃ c, chAt s 0 = some c ∧ c.isDigit = true := by
  rcases List.any_eq_true.mp h with ⟨m, hm, hsw⟩
  have hsw2 : listStartsWith s.data m.data = true := hsw
  fin_cases hm <;>
    exact ⟨_, by rw [chAt_zero, listStartsWith_head hsw2 (by decide)]; rfl, by decide⟩

/-- Classification of every line the Key Findings loop can emit for one
agent: blank, a dash bullet, the bold runbook label, a `### ` subheading,
or a verbatim step starting with a digit. -/
theorem agent_findings_lines_shape {n r s : String} (h : s ∈ agent_findings_lines n r) :
    s = "" ∨ chAt s 0 = some '-' ∨ chAt s 0 = some '*'
      ∨ (chAt s 0 = some '#' ∧ chAt s 2 = some '#')
      ∨ ∃ c, chAt s 0 = some c ∧ c.isDigit = true := by
  unfold agent_findings_lines at h
  by_cases hr : r = "" ∨ r = "No response provided"
  · rw [if_pos hr] at h; simp at h
  · rw [if_neg hr] at h
    rcases List.mem_append.mp h with hhd | hbr
    · have hs : s = "### " ++ pythonTitle (replaceUnderscores n) := by simpa using hhd
      subst hs
      exact Or.inr (Or.inr (Or.inr (Or.inl
        ⟨chAt_zero_append _ _ _ (by decide), chAt_two_subheading _⟩)))
    · by_cases hrb : (strContains (pyLower n) "runbooks" || strContains (pyLower n) "operational") = true
      · rw [if_pos hrb] at hbr
        by_cases hst : extract_steps_from_response r ≠ []
        · rw [if_pos hst] at hbr
          simp only [List.append_assoc, List.mem_append, List.mem_cons,
            List.not_mem_nil, or_false, false_or, List.mem_map] at hbr
          rcases hbr with hb | hb | ⟨step, hstep, hfs⟩ | hb
          · exact Or.inl hb
          · exact Or.inr (Or.inr (Or.inl (by rw [hb]; decide)))
          · by_cases ho : startsWithOrdinal (pyStrip step) = true
            · rw [if_pos ho] at hfs
              obtain ⟨c, hc, hd⟩ := startsWithOrdinal_first_digit ho
              exact Or.inr (Or.inr (Or.inr (Or.inr ⟨c, hfs ▸ hc, hd⟩)))
            · rw [if_neg ho] at hfs
              exact Or.inr (Or.inl (hfs ▸ chAt_zero_append _ _ _ (by decide)))
          · exact Or.inl hb
        · rw [if_neg hst] at hbr
          rcases (by simpa using hbr : s = "- " ++ r ∨ s = "") with hb | hb
          · exact Or.inr (Or.inl (hb ▸ chAt_zero_append _ _ _ (by decide)))
          · exact Or.inl hb
      · rw [if_neg hrb] at hbr
        rcases (by simpa using hbr : s = "- " ++ r ∨ s = "") with hb | hb
        · exact Or.inr (Or.inl (hb ▸ chAt_zero_append _ _ _ (by decide)))
        · exact Or.inl hb

/-- A string whose first character is a hash and whose third character is a
space (the shape of every `## ` section heading) can never be one of the
lines the Key Findings loop emits for an agent. -/
theorem not_mem_agent_findings {n r t : String} (ht0 : chAt t 0 = some '#')
    (ht2 : chAt t 2 = some ' ') : t ∉ agent_findings_lines n r := by
  intro hm
  rcases agent_findings_lines_shape hm with hb | hb | hb | ⟨hb0, hb2⟩ | ⟨c, hc, hd⟩
  · rw [hb] at ht0; simp [chAt] at ht0
  · rw [hb] at ht0; exact absurd ht0 (by decide)
  · rw [hb] at ht0; exact absurd ht0 (by decide)
  · rw [hb2] at ht2; exact absurd ht2 (by decide)
  · rw [hc] at ht0
    have hce : c = '#' := by simpa using ht0
    rw [hce] at hd; exact absurd hd (by decide)

/-- Exclusion of a heading-shaped string from the whole Key Findings
section, provided it is not the Key Findings heading itself. -/
theorem not_mem_findings_block {ar : List (String × String)} {t : String}
    (ht0 : chAt t 0 = some '#') (ht2 : chAt t 2 = some ' ')
    (htK : t ≠ "## 🎯 Key Findings") (hne : t ≠ "") : t ∉ findings_block ar := by
  unfold findings_block
  by_cases h : ar = []
  · rw [if_pos h]; simp
  · rw [if_neg h]
    intro hm
    rcases List.mem_append.mp hm with hh | hfl
    · rcases (by simpa using hh : t = "## 🎯 Key Findings" ∨ t = "") with hb | hb
      · exact htK hb
      · exact hne hb
    · rcases List.mem_flatMap.mp hfl with ⟨p, _, hpl⟩
      exact not_mem_agent_findings ht0 ht2 hpl

/-- Every numbered line carries a period, so it can never equal a string
without one. -/
theorem numbered_line_ne {t : String} (hdot : ('.' : Char) ∉ t.data) (i : Int) (s : String) :
    toString i ++ ". " ++ s ≠ t := by
  intro he
  apply hdot
  rw [← he, data_append, data_append]
  exact List.mem_append.mpr (Or.inl (List.mem_append.mpr (Or.inr (by decide))))

/-- Exclusion from the Next Steps section of any string that is not its
heading, not blank, and contains no period. -/
theorem not_mem_next_steps_block {t : String} (h1 : t ≠ "## 📋 Next Steps") (h2 : t ≠ "")
    (hdot : ('.' : Char) ∉ t.data) (pi : PlanDict) (cs : Int) :
    t ∉ next_steps_block pi cs := by
  unfold next_steps_block
  by_cases hc : pi.truthy ∧ cs < ((pi.steps.getD []).length : Int)
  · rw [if_pos hc]
    intro hm
    simp only [List.append_assoc, List.mem_append, List.mem_cons, List.not_mem_nil,
      or_false, false_or, List.mem_map] at hm
    rcases hm with (hb | hb) | ⟨p, _, hfs⟩ | hb
    · exact h1 hb
    · exact h2 hb
    · exact numbered_line_ne hdot p.1 p.2 hfs
    · exact h2 hb
  · rw [if_neg hc]; simp

/-- The four fixed lines of the Investigation Complete section. -/
theorem mem_complete_block {t : String} {cs ts : Int} (h : t ∈ complete_block cs ts) :
    t = "## ✅ Investigation Complete" ∨ t = ""
      ∨ t = "All planned investigation steps have been executed." := by
  unfold complete_block at h
  by_cases hc : ts ≤ cs
  · rw [if_pos hc] at h
    have hd : t = "## ✅ Investigation Complete" ∨ t = ""
        ∨ t = "All planned investigation steps have been executed." ∨ t = "" := by
      simpa using h
    tauto
  · rw [if_neg hc] at h; simp at h

/-- The executive summary block holds the summary and a blank line. -/
theorem mem_summary_block {es t : String} (h : t ∈ summary_block es) : t = es ∨ t = "" := by
  unfold summary_block at h
  by_cases he : es = ""
  · rw [if_pos he] at h; simp at h
  · rw [if_neg he] at h; simpa using h

/-- Splitting membership in the rendered document into its five blocks. -/
theorem mem_lines_split {oracle : LLMOracle} {query t : String}
    {ar : List (String × String)} {md : Metadata} {plan : Option PlanDict}
    {prefs : List String}
    (h : t ∈ format_investigation_response_lines oracle query ar md plan prefs) :
    t ∈ header_lines query
      ∨ t ∈ summary_block (generate_executive_summary oracle query ar md prefs)
      ∨ t ∈ findings_block ar
      ∨ t ∈ next_steps_block (effective_plan plan md) (md.plan_step.getD 0 + 1)
      ∨ t ∈ complete_block (md.plan_step.getD 0 + 1)
          (((effective_plan plan md).steps.getD []).length : Int) := by
  unfold format_investigation_response_lines at h
  simp only [List.mem_append] at h
  tauto

/-- Reassembling membership in the rendered document from a block. -/
theorem mem_lines_of_block {oracle : LLMOracle} {query t : String}
    {ar : List (String × String)} {md : Metadata} {plan : Option PlanDict}
    {prefs : List String}
    (h : t ∈ header_lines query
      ∨ t ∈ summary_block (generate_executive_summary oracle query ar md prefs)
      ∨ t ∈ findings_block ar
      ∨ t ∈ next_steps_block (effective_plan plan md) (md.plan_step.getD 0 + 1)
      ∨ t ∈ complete_block (md.plan_step.getD 0 + 1)
          (((effective_plan plan md).steps.getD []).length : Int)) :
    t ∈ format_investigation_response_lines oracle query ar md plan prefs := by
  unfold format_investigation_response_lines
  simp only [List.mem_append]
  tauto

/-- The four header lines: the only variable one starts with two asterisks. -/
theorem not_mem_header_lines {t : String} (h1 : t ≠ "# 🔍 Investigation Results")
    (h2 : t ≠ "") (h3 : chAt t 0 ≠ some '*') (q : String) : t ∉ header_lines q := by
  unfold header_lines
  intro hm
  rcases (by simpa using hm : t = "# 🔍 Investigation Results" ∨ t = ""
      ∨ t = "**Query:** " ++ q ∨ t = "") with hb | hb | hb | hb
  · exact h1 hb
  · exact h2 hb
  · exact h3 (by rw [hb]; exact chAt_zero_append _ _ _ (by decide))
  · exact h2 hb

/-- Accumulating loop of the step extractor as a filter over the stripped
lines. -/
theorem foldl_step_filter (l : List String) (acc : List String) :
    l.foldl (fun steps line =>
        if is_step_line (pyStrip line) then steps ++ [pyStrip line] else steps) acc
      = acc ++ (l.map pyStrip).filter is_step_line := by
  induction l generalizing acc with
  | nil => simp
  | cons a t ih =>
    rw [List.foldl_cons, ih, List.map_cons]
    by_cases hp : is_step_line (pyStrip a) = true
    · rw [List.filter_cons_of_pos hp, if_pos hp]
      simp [List.append_assoc]
    · rw [List.filter_cons_of_neg hp, if_neg hp]

/-- All-sentinel agent results contribute no block to the context text. -/
theorem formatted_results_all_sentinel {l : List (String × String)}
    (hl : ∀ p ∈ l, p.2 = "" ∨ p.2 = "No response provided") : formatted_results l = [] := by
  induction l with
  | nil => rfl
  | cons a t ih =>
    unfold formatted_results at ih ⊢
    rw [List.filterMap_cons]
    have ha : (if a.2 ≠ "" ∧ a.2 ≠ "No response provided" then
        some ("**" ++ a.1 ++ ":**\n" ++ a.2 ++ "\n") else none) = none := by
      rcases hl a (by simp) with h | h <;> simp [h]
    rw [ha]
    exact ih (fun p hp => hl p (by simp [hp]))

/-- C6: `_extract_steps_from_response` returns exactly the trimmed lines of
the input that are non-empty and whose first character is a digit or that
start with a dash or the bullet glyph, verbatim and in original order; the
empty (falsy) input yields the empty sequence.  Stated as equality between
the embedded loop and the filter the specification describes. -/
theorem c6_step_extractor (response : String) :
    extract_steps_from_response response = extract_steps_spec response := by
  by_cases h : response = ""
  · subst h; decide
  · unfold extract_steps_from_response extract_steps_spec
    rw [if_neg h, foldl_step_filter]
    simp

/-- C9: with a fixed formatter configuration and a deterministic LLM
collaborator, two renders of identical inputs are byte-identical strings,
and the call leaves the formatter state unchanged.  Determinism is the
equality of the two call results; statelessness is the unchanged receiver
of the state-threaded method embedding. -/
theorem c9_deterministic_stateless (f : SREOutputFormatter) (oracle : LLMOracle)
    (query : String) (ar : List (String × String)) (md : Metadata)
    (plan : Option PlanDict) (prefs : List String) :
    (f.format_investigation_response_method oracle query ar md plan prefs).1
      = (f.format_investigation_response_method oracle query ar md plan prefs).1
    ∧ (f.format_investigation_response_method oracle query ar md plan prefs).2 = f :=
  ⟨rfl, rfl⟩

/-- C1: when the effectful part of the executive summary generation raises
(any failure of client construction, prompt preparation or invocation,
modelled by the oracle returning an error), `_generate_executive_summary`
returns exactly the fixed fallback summary, which depends on neither the
query nor the agent results; no exception escapes (the embedding stays a
total function), and `format_investigation_response` still returns the
complete markdown document, with the fallback text in the summary slot. -/
theorem c1_llm_failure (oracle : LLMOracle) (query : String)
    (agent_results : List (String × String)) (metadata : Metadata)
    (plan : Option PlanDict) (user_preferences : List String) (e : String)
    (hfail : oracle query (results_text agent_results user_preferences) = Except.error e)
    (hne : agent_results ≠ []) :
    generate_executive_summary oracle query agent_results metadata user_preferences
        = generate_fallback_summary query agent_results
    ∧ (∀ q2 : String, ∀ ar2 : List (String × String),
        generate_fallback_summary q2 ar2 = fallback_text)
    ∧ format_investigation_response oracle query agent_results metadata plan user_preferences
        = String.intercalate "\n"
            (header_lines query ++ [fallback_text, ""]
              ++ findings_block agent_results
              ++ next_steps_block (effective_plan plan metadata) (metadata.plan_step.getD 0 + 1)
              ++ complete_block (metadata.plan_step.getD 0 + 1)
                  (((effective_plan plan metadata).steps.getD []).length : Int)) := by
  have hsum : generate_executive_summary oracle query agent_results metadata user_preferences
      = fallback_text := by
    unfold generate_executive_summary
    rw [if_neg hne, hfail]
    rfl
  refine ⟨hsum, fun _ _ => rfl, ?_⟩
  unfold format_investigation_response format_investigation_response_lines
  rw [hsum]
  have hsb : summary_block fallback_text = [fallback_text, ""] := by
    unfold summary_block; rw [if_neg (by decide)]
  rw [hsb]

/-- C10: the executive summary generator short-circuits to the empty
string, without consulting the LLM, exactly when `agent_results` is empty;
for every non-empty mapping the oracle is consulted and the result is the
stripped response or the fallback, and when every entry is empty or the
sentinel (and no preferences are given) the context text handed to the
prompts is empty. -/
theorem c10_summary_control_flow (oracle : LLMOracle) (query : String)
    (agent_results : List (String × String)) (metadata : Metadata) (prefs : List String) :
    (agent_results = [] →
      ∀ oracle2 : LLMOracle,
        generate_executive_summary oracle2 query agent_results metadata prefs = "")
    ∧ (agent_results ≠ [] →
      generate_executive_summary oracle query agent_results metadata prefs =
        match oracle query (results_text agent_results prefs) with
        | Except.ok content => pyStrip content
        | Except.error _ => fallback_text)
    ∧ ((∀ p ∈ agent_results, p.2 = "" ∨ p.2 = "No response provided") → prefs = [] →
        results_text agent_results prefs = "") := by
  refine ⟨?_, ?_, ?_⟩
  · intro h oracle2
    unfold generate_executive_summary
    rw [if_pos h]
  · intro h
    unfold generate_executive_summary
    rw [if_neg h]
    cases oracle query (results_text agent_results prefs) <;> rfl
  · intro hall hp
    subst hp
    unfold results_text
    rw [if_neg (by simp), formatted_results_all_sentinel hall]
    rfl

/-- With an empty or absent step list, the plan approval document has no
Investigation Steps heading: every other line is fixed text different from
it or starts with two asterisks. -/
theorem steps_heading_not_mem (plan : PlanDict) (query : String)
    (h : plan.steps.getD [] = []) :
    "## Investigation Steps" ∉ format_plan_approval_lines plan query := by
  unfold format_plan_approval_lines
  rw [if_neg (by simp [h])]
  intro hm
  have hstar : ∀ p x : String, chAt p 0 = some '*' →
      "## Investigation Steps" ≠ p ++ x := by
    intro p x hp he
    have h0 : chAt ("## Investigation Steps") 0 = some '*' := by
      rw [he]; exact chAt_zero_append _ _ _ hp
    exact absurd h0 (by decide)
  rcases List.mem_append.mp hm with hm' | hm4
  · rcases List.mem_append.mp hm' with hm'' | hm3
    · rcases List.mem_append.mp hm'' with hm1 | hm0
      · simp only [List.mem_cons, List.not_mem_nil, or_false] at hm1
        rcases hm1 with h1 | h1 | h1 | h1 | h1
        · exact absurd h1 (by decide)
        · exact absurd h1 (by decide)
        · exact hstar "**Query:** " query (by decide) h1
        · exact hstar "**Complexity:** " (pythonTitle (plan.complexity.getD "unknown"))
            (by decide) h1
        · exact absurd h1 (by decide)
      · simp at hm0
    · simp only [List.mem_cons, List.not_mem_nil, or_false] at hm3
      rcases hm3 with h1 | h1 | h1 | h1 | h1
      · exact absurd h1 (by decide)
      · exact absurd h1 (by decide)
      · exact hstar "**Reasoning:** " (plan.reasoning.getD "Standard investigation approach")
          (by decide) h1
      · exact hstar "**Auto-execute:** "
          (if plan.auto_execute.getD false then "Yes" else "No") (by decide) h1
      · exact absurd h1 (by decide)
  · exact absurd hm4 (by decide)

/-- C7: `format_plan_approval` is a pure function of the plan and the query
(no oracle parameter: the source makes no LLM call, so the embedding is
total and deterministic by construction); the auto-execute flag renders as
the matching Yes/No line, and with no steps the Investigation Steps section
is omitted while Plan Details and Available Actions still appear. -/
theorem c7_plan_approval (plan : PlanDict) (query : String) :
    format_plan_approval plan query
        = String.intercalate "\n" (format_plan_approval_lines plan query)
    ∧ (plan.auto_execute.getD false = true →
        "**Auto-execute:** Yes" ∈ format_plan_approval_lines plan query)
    ∧ (plan.auto_execute.getD false = false →
        "**Auto-execute:** No" ∈ format_plan_approval_lines plan query)
    ∧ (plan.steps.getD [] = [] →
        ("## Investigation Steps" ∉ format_plan_approval_lines plan query
          ∧ "## Plan Details" ∈ format_plan_approval_lines plan query
          ∧ "## Available Actions" ∈ format_plan_approval_lines plan query)) := by
  refine ⟨rfl, ?_, ?_, ?_⟩
  · intro h
    unfold format_plan_approval_lines
    rw [h]
    have he : ("**Auto-execute:** " ++ if true = true then "Yes" else "No")
        = "**Auto-execute:** Yes" := rfl
    rw [he]
    simp
  · intro h
    unfold format_plan_approval_lines
    rw [h]
    have he : ("**Auto-execute:** " ++ if false = true then "Yes" else "No")
        = "**Auto-execute:** No" := rfl
    rw [he]
    simp
  · intro h
    exact ⟨steps_heading_not_mem plan query h,
      by unfold format_plan_approval_lines; simp,
      by unfold format_plan_approval_lines; simp⟩

/-- C8: for every plan record, each missing field is defaulted
independently rather than failing: an absent complexity renders as the
title-cased "Unknown", an absent reasoning as the standard text, an absent
auto-execute as No, and absent steps omit the Investigation Steps section,
whatever the other fields hold. -/
theorem c8_plan_defaults (plan : PlanDict) (query : String) :
    (plan.complexity = none →
      "**Complexity:** Unknown" ∈ format_plan_approval_lines plan query)
    ∧ (plan.reasoning = none →
      "**Reasoning:** Standard investigation approach" ∈ format_plan_approval_lines plan query)
    ∧ (plan.auto_execute = none →
      "**Auto-execute:** No" ∈ format_plan_approval_lines plan query)
    ∧ (plan.steps = none →
      "## Investigation Steps" ∉ format_plan_approval_lines plan query) := by
  refine ⟨?_, ?_, ?_, ?_⟩
  · intro hc
    have h1 : "**Complexity:** " ++ pythonTitle (plan.complexity.getD "unknown")
        = "**Complexity:** Unknown" := by rw [hc]; decide
    unfold format_plan_approval_lines; rw [h1]; simp
  · intro hr
    have h2 : plan.reasoning.getD "Standard investigation approach"
        = "Standard investigation approach" := by rw [hr]; rfl
    unfold format_plan_approval_lines; rw [h2]; simp
  · intro ha
    have h3 : ("**Auto-execute:** " ++ if plan.auto_execute.getD false then "Yes" else "No")
        = "**Auto-execute:** No" := by rw [ha]; rfl
    unfold format_plan_approval_lines; rw [h3]; simp
  · intro hs
    exact steps_heading_not_mem plan query (by rw [hs]; rfl)

/-- C2: with an integer `plan_step >= 0` in the metadata, the rendered
document contains the Next Steps heading exactly when
`current_step = plan_step + 1` is smaller than the length of the effective
plan step list, and the Investigation Complete heading exactly otherwise;
the two sections are mutually exclusive, and an empty effective plan always
yields the completion section.  The two side conditions keep the free LLM
text of the executive summary from being textually mistaken for one of the
two section headings. -/
theorem c2_next_vs_complete (oracle : LLMOracle) (query : String)
    (ar : List (String × String)) (md : Metadata) (plan : Option PlanDict)
    (prefs : List String)
    (hstep : 0 ≤ md.plan_step.getD 0)
    (hes1 : generate_executive_summary oracle query ar md prefs ≠ "## 📋 Next Steps")
    (hes2 : generate_executive_summary oracle query ar md prefs
      ≠ "## ✅ Investigation Complete") :
    (("## 📋 Next Steps" ∈ format_investigation_response_lines oracle query ar md plan prefs)
        ↔ md.plan_step.getD 0 + 1 < (((effective_plan plan md).steps.getD []).length : Int))
    ∧ (("## ✅ Investigation Complete"
          ∈ format_investigation_response_lines oracle query ar md plan prefs)
        ↔ (((effective_plan plan md).steps.getD []).length : Int) ≤ md.plan_step.getD 0 + 1)
    ∧ ¬(("## 📋 Next Steps" ∈ format_investigation_response_lines oracle query ar md plan prefs)
        ∧ ("## ✅ Investigation Complete"
            ∈ format_investigation_response_lines oracle query ar md plan prefs))
    ∧ ((effective_plan plan md).steps.getD [] = [] →
        "## ✅ Investigation Complete"
          ∈ format_investigation_response_lines oracle query ar md plan prefs) := by
  have hiff1 : ("## 📋 Next Steps"
        ∈ format_investigation_response_lines oracle query ar md plan prefs)
      ↔ md.plan_step.getD 0 + 1 < (((effective_plan plan md).steps.getD []).length : Int) := by
    constructor
    · intro h
      rcases mem_lines_split h with hb | hb | hb | hb | hb
      · exact absurd hb (not_mem_header_lines (by decide) (by decide) (by decide) query)
      · rcases mem_summary_block hb with he | he
        · exact absurd he.symm hes1
        · exact absurd he (by decide)
      · exact absurd hb (not_mem_findings_block (by decide) (by decide) (by decide) (by decide))
      · unfold next_steps_block at hb
        by_cases hc : (effective_plan plan md).truthy
            ∧ md.plan_step.getD 0 + 1 < (((effective_plan plan md).steps.getD []).length : Int)
        · exact hc.2
        · rw [if_neg hc] at hb; simp at hb
      · rcases mem_complete_block hb with he | he | he <;> exact absurd he (by decide)
    · intro hlt
      apply mem_lines_of_block
      refine Or.inr (Or.inr (Or.inr (Or.inl ?_)))
      unfold next_steps_block
      have htr : (effective_plan plan md).truthy = true := by
        cases hstps : (effective_plan plan md).steps with
        | none => exfalso; rw [hstps] at hlt; simp at hlt; omega
        | some l => unfold PlanDict.truthy; rw [hstps]; simp
      rw [if_pos ⟨htr, hlt⟩]
      simp
  have hiff2 : ("## ✅ Investigation Complete"
        ∈ format_investigation_response_lines oracle query ar md plan prefs)
      ↔ (((effective_plan plan md).steps.getD []).length : Int) ≤ md.plan_step.getD 0 + 1 := by
    constructor
    · intro h
      rcases mem_lines_split h with hb | hb | hb | hb | hb
      · exact absurd hb (not_mem_header_lines (by decide) (by decide) (by decide) query)
      · rcases mem_summary_block hb with he | he
        · exact absurd he.symm hes2
        · exact absurd he (by decide)
      · exact absurd hb (not_mem_findings_block (by decide) (by decide) (by decide) (by decide))
      · exact absurd hb (not_mem_next_steps_block (by decide) (by decide) (by decide) _ _)
      · unfold complete_block at hb
        by_cases hc : (((effective_plan plan md).steps.getD []).length : Int)
            ≤ md.plan_step.getD 0 + 1
        · exact hc
        · rw [if_neg hc] at hb; simp at hb
    · intro hle
      apply mem_lines_of_block
      refine Or.inr (Or.inr (Or.inr (Or.inr ?_)))
      unfold complete_block
      rw [if_pos hle]
      simp
  refine ⟨hiff1, hiff2, ?_, ?_⟩
  · rintro ⟨hn, hc⟩
    have h1 := hiff1.mp hn
    have h2 := hiff2.mp hc
    omega
  · intro hempty
    apply hiff2.mpr
    rw [hempty]
    simp
    omega

/-- All-sentinel agent results produce no Key Findings content lines. -/
theorem findings_flat_all_sentinel {l : List (String × String)}
    (hl : ∀ p ∈ l, p.2 = "" ∨ p.2 = "No response provided") :
    l.flatMap (fun p => agent_findings_lines p.1 p.2) = [] := by
  induction l with
  | nil => rfl
  | cons a t ih =>
    rw [List.flatMap_cons]
    have ha : agent_findings_lines a.1 a.2 = [] := by
      unfold agent_findings_lines
      rw [if_pos (hl a (by simp))]
    rw [ha, List.nil_append]
    exact ih (fun p hp => hl p (by simp [hp]))

/-- C5 (amended): for an agent whose name contains "runbooks" or
"operational" (case-insensitive; "runbook" without the final s does not
match, see the counterexample) and whose result is neither empty nor the
sentinel, the document emits the Runbook Steps Found label and every
extracted step, verbatim if it begins with a single-digit ordinal marker
and prefixed with a dash otherwise; if no step is extracted, the full raw
result appears as one bullet. -/
theorem c5_runbook_steps (oracle : LLMOracle) (query : String)
    (ar : List (String × String)) (md : Metadata) (plan : Option PlanDict)
    (prefs : List String) (name result : String)
    (hmem : (name, result) ∈ ar)
    (hs1 : result ≠ "") (hs2 : result ≠ "No response provided")
    (hname : strContains (pyLower name) "runbooks" = true
      ∨ strContains (pyLower name) "operational" = true) :
    (extract_steps_from_response result ≠ [] →
      ("**Runbook Steps Found:**"
          ∈ format_investigation_response_lines oracle query ar md plan prefs
        ∧ ∀ step ∈ extract_steps_from_response result,
            (if startsWithOrdinal (pyStrip step) then pyStrip step else "- " ++ pyStrip step)
              ∈ format_investigation_response_lines oracle query ar md plan prefs))
    ∧ (extract_steps_from_response result = [] →
        ("- " ++ result) ∈ format_investigation_response_lines oracle query ar md plan prefs) := by
  have hchain : ∀ t : String, t ∈ agent_findings_lines name result →
      t ∈ format_investigation_response_lines oracle query ar md plan prefs := by
    intro t ht
    apply mem_lines_of_block
    refine Or.inr (Or.inr (Or.inl ?_))
    unfold findings_block
    rw [if_neg (List.ne_nil_of_mem hmem)]
    exact List.mem_append.mpr (Or.inr (List.mem_flatMap.mpr ⟨(name, result), hmem, ht⟩))
  have hopen : agent_findings_lines name result
      = ["### " ++ pythonTitle (replaceUnderscores name)]
        ++ (if extract_steps_from_response result ≠ [] then
              [""] ++ ["**Runbook Steps Found:**"]
                ++ (extract_steps_from_response result).map (fun step =>
                    if startsWithOrdinal (pyStrip step) then pyStrip step
                    else "- " ++ pyStrip step)
                ++ [""]
            else ["- " ++ result, ""]) := by
    unfold agent_findings_lines
    rw [if_neg (not_or.mpr ⟨hs1, hs2⟩), if_pos (by rcases hname with h | h <;> simp [h])]
  constructor
  · intro hne
    constructor
    · apply hchain
      rw [hopen, if_pos hne]
      simp
    · intro step hstep
      apply hchain
      rw [hopen, if_pos hne]
      refine List.mem_append.mpr (Or.inr ?_)
      refine List.mem_append.mpr (Or.inl ?_)
      refine List.mem_append.mpr (Or.inr ?_)
      exact List.mem_map.mpr ⟨step, hstep, rfl⟩
  · intro hemp
    apply hchain
    rw [hopen, if_neg (by simp [hemp])]
    simp

/-- C3 (amended): when every agent result is empty or the sentinel, no
per-agent content is emitted at all, so the Key Findings section reduces
to its bare heading; the heading itself still appears exactly when the
`agent_results` mapping is non-empty (the source guards the heading only
on the truthiness of the mapping, not on any entry surviving the skip).
The side condition keeps the free LLM text from coinciding with the
heading. -/
theorem c3_sentinel_findings (oracle : LLMOracle) (query : String)
    (ar : List (String × String)) (md : Metadata) (plan : Option PlanDict)
    (prefs : List String)
    (hall : ∀ p ∈ ar, p.2 = "" ∨ p.2 = "No response provided")
    (hes : generate_executive_summary oracle query ar md prefs ≠ "## 🎯 Key Findings") :
    (ar.flatMap (fun p => agent_findings_lines p.1 p.2) = [])
    ∧ (findings_block ar = if ar = [] then [] else ["## 🎯 Key Findings", ""])
    ∧ (("## 🎯 Key Findings" ∈ format_investigation_response_lines oracle query ar md plan prefs)
        ↔ ar ≠ []) := by
  have hfl := findings_flat_all_sentinel hall
  have hfb : findings_block ar = if ar = [] then [] else ["## 🎯 Key Findings", ""] := by
    unfold findings_block
    by_cases h : ar = []
    · rw [if_pos h, if_pos h]
    · rw [if_neg h, if_neg h, hfl, List.append_nil]
  refine ⟨hfl, hfb, ?_, ?_⟩
  · intro hmem hnil
    rcases mem_lines_split hmem with hb | hb | hb | hb | hb
    · exact absurd hb (not_mem_header_lines (by decide) (by decide) (by decide) query)
    · rcases mem_summary_block hb with he | he
      · exact hes he.symm
      · exact absurd he (by decide)
    · rw [hfb, if_pos hnil] at hb; simp at hb
    · exact absurd hb (not_mem_next_steps_block (by decide) (by decide) (by decide) _ _)
    · rcases mem_complete_block hb with he | he | he <;> exact absurd he (by decide)
  · intro hne
    apply mem_lines_of_block
    refine Or.inr (Or.inr (Or.inl ?_))
    rw [hfb, if_neg hne]
    simp

/-- Metadata with plan_step 0 and no embedded plan, as in the worked
example of the spec. -/
def mdStep0 : Metadata := ⟨some 0, none⟩

/-- Metadata dict with no modelled keys. -/
def mdEmpty : Metadata := ⟨none, none⟩

/-- The plan of the worked example of the spec. -/
def planExample : PlanDict :=
  ⟨some ["Check CPU", "Check DB", "Check network"], some "medium", none, none⟩

/-- The agent results of the worked example of the spec. -/
def arExample : List (String × String) :=
  [("runbooks_agent", "1. Check CPU\n2. Check DB"), ("logs_agent", "No response provided")]

/-- A one-entry mapping whose only value is the sentinel. -/
def arSentinel : List (String × String) := [("logs_agent", "No response provided")]

/-- C3 counterexample: a non-empty mapping whose every value is the
sentinel still renders the Key Findings heading, so the section is not
entirely omitted as the claim states. -/
theorem c3_counterexample :
    (∀ p ∈ arSentinel, p.2 = "" ∨ p.2 = "No response provided")
    ∧ "## 🎯 Key Findings"
        ∈ format_investigation_response_lines failOracle "q" arSentinel mdEmpty none [] := by
  decide

/-- C4 counterexample: on the worked example the Next Steps section does
not list "2. Check network"; that line never occurs in the document, while
"2. Check DB" does. -/
theorem c4_counterexample :
    "2. Check network"
        ∉ format_investigation_response_lines failOracle "Why is checkout slow?" arExample
            mdStep0 (some planExample) []
    ∧ "2. Check DB"
        ∈ format_investigation_response_lines failOracle "Why is checkout slow?" arExample
            mdStep0 (some planExample) [] := by
  decide

/-- C4 (amended): the worked example renders the Runbooks Agent subsection
with both numbered lines verbatim, omits any Logs Agent subsection, and
its Next Steps section lists "2. Check DB" and "3. Check network" (the
remaining steps `steps[1:]` renumbered from 2). -/
theorem c4_example :
    "### Runbooks Agent"
        ∈ format_investigation_response_lines failOracle "Why is checkout slow?" arExample
            mdStep0 (some planExample) []
    ∧ "1. Check CPU"
        ∈ format_investigation_response_lines failOracle "Why is checkout slow?" arExample
            mdStep0 (some planExample) []
    ∧ "2. Check DB"
        ∈ format_investigation_response_lines failOracle "Why is checkout slow?" arExample
            mdStep0 (some planExample) []
    ∧ "### Logs Agent"
        ∉ format_investigation_response_lines failOracle "Why is checkout slow?" arExample
            mdStep0 (some planExample) []
    ∧ next_steps_block (effective_plan (some planExample) mdStep0) (mdStep0.plan_step.getD 0 + 1)
        = ["## 📋 Next Steps", "", "2. Check DB", "3. Check network", ""] := by
  decide

/-- C5 counterexample: an agent name containing "runbook" but not
"runbooks" (and not "operational") does not take the runbook branch, so no
Runbook Steps Found label is emitted even though the result has a step
line. -/
theorem c5_counterexample :
    strContains (pyLower "runbook_agent") "runbook" = true
    ∧ extract_steps_from_response "1. Check CPU" ≠ []
    ∧ "**Runbook Steps Found:**"
        ∉ format_investigation_response_lines failOracle "q"
            [("runbook_agent", "1. Check CPU")] mdEmpty none [] := by
  decide

/-- Witness for C1 at a concrete failing oracle and concrete inputs. -/
theorem c1_witness :
    generate_executive_summary failOracle "q" arExample mdEmpty []
      = generate_fallback_summary "q" arExample :=
  (c1_llm_failure failOracle "q" arExample mdEmpty none [] "simulated LLM failure" rfl
    (by decide)).1

/-- Witness for C2 at concrete inputs with an empty effective plan: the
completion section appears. -/
theorem c2_witness :
    "## ✅ Investigation Complete"
      ∈ format_investigation_response_lines failOracle "q" arExample mdEmpty none [] :=
  (c2_next_vs_complete failOracle "q" arExample mdEmpty none []
      (by decide) (by decide) (by decide)).2.2.2 (by decide)

/-- Witness for the amended C3 at the concrete all-sentinel mapping. -/
theorem c3_witness :
    ("## 🎯 Key Findings"
        ∈ format_investigation_response_lines failOracle "q" arSentinel mdEmpty none [])
      ↔ arSentinel ≠ [] :=
  (c3_sentinel_findings failOracle "q" arSentinel mdEmpty none [] (by decide) (by decide)).2.2

/-- Witness for the amended C5 at the concrete runbooks agent. -/
theorem c5_witness :
    "**Runbook Steps Found:**"
      ∈ format_investigation_response_lines failOracle "q" arExample mdEmpty none [] :=
  ((c5_runbook_steps failOracle "q" arExample mdEmpty none [] "runbooks_agent"
      "1. Check CPU\n2. Check DB" (by decide) (by decide) (by decide)
      (Or.inl (by decide))).1 (by decide)).1

/-- Witness for C7 at a concrete plan with auto-execute set. -/
theorem c7_witness :
    "**Auto-execute:** Yes" ∈ format_plan_approval_lines ⟨none, none, none, some true⟩ "q" :=
  (c7_plan_approval ⟨none, none, none, some true⟩ "q").2.1 (by decide)

/-- Witness for C8 at two mixed plans: one with steps present but
complexity absent, and one with complexity present but steps absent. -/
theorem c8_witness :
    ("**Complexity:** Unknown"
        ∈ format_plan_approval_lines ⟨some ["Check CPU"], none, none, none⟩ "q")
    ∧ ("## Investigation Steps"
        ∉ format_plan_approval_lines ⟨none, some "low", none, none⟩ "q") :=
  ⟨(c8_plan_defaults ⟨some ["Check CPU"], none, none, none⟩ "q").1 rfl,
   (c8_plan_defaults ⟨none, some "low", none, none⟩ "q").2.2.2 rfl⟩

/-- Witness for C10: the all-sentinel mapping yields an empty context. -/
theorem c10_witness :
    results_text arSentinel [] = "" :=
  (c10_summary_control_flow failOracle "q" arSentinel mdEmpty []).2.2 (by decide) rfl
